import Mathlib

/-!
# Verification of the AI-Resume-Analyzer serverless handlers

Shallow embedding of the three handler variants of the repository:

* `Pages`  — `src/functions/api/getAnalysis.js` (`onRequestPost`, Cloudflare Pages)
* `Vercel` — `src/untitled folder 9/API/gtAnalysis.js` (`handler` + `getSystemPrompt`)
* `Worker` — `src/untitled folder 9/functions:/api:/getAnalysis.js` (`onRequest` + its
  own copy of `getSystemPrompt`, whose critique wording differs slightly)

JS `undefined`/absent fields are modelled as `Option`, JS string truthiness as
`truthy` (absent or empty string is falsy), `a || b` on strings as `jsOr`.
The single upstream API call is modelled by passing the upstream's answer as an
explicit argument; each handler returns an `Outcome` that records the HTTP
status, the JSON body fields actually emitted (`JSON.stringify` drops fields
holding `undefined`, hence the `Option`s), and the list of upstream calls made,
each with the tool list and prompt it carried.
-/

namespace ResumeAnalyzer

/-- JS truthiness of an optional string: `undefined` and `""` are falsy. -/
def truthy : Option String → Bool
  | none => false
  | some s => !(s == "")

/-- JS `a || b` for an optional string `a` and default `b`. -/
def jsOr (o : Option String) (d : String) : String :=
  match o with
  | none => d
  | some s => if s == "" then d else s

/-- JS string interpolation `${x}`: `undefined` prints as `"undefined"`. -/
def interp : Option String → String
  | none => "undefined"
  | some s => s

/-- The `web` object of a grounding attribution (`attribution.web`). -/
structure Web where
  uri : Option String
  title : Option String
deriving Repr, DecidableEq

/-- One grounding attribution of the upstream response. -/
structure Attribution where
  web : Option Web
deriving Repr, DecidableEq

/-- One entry of the returned `sources` array: `{uri, title}`. -/
structure Source where
  uri : Option String
  title : Option String
deriving Repr, DecidableEq

/-- The map step `attribution => ({uri: attribution.web?.uri, title: attribution.web?.title})`. -/
def mkSource (a : Attribution) : Source :=
  { uri := a.web.bind Web.uri, title := a.web.bind Web.title }

/-- The filter step `source => source.uri && source.title` (JS truthiness). -/
def validSource (s : Source) : Bool := truthy s.uri && truthy s.title

/-- `groundingAttributions.map(...).filter(...)` — identical in all three variants. -/
def extractList (attrs : List Attribution) : List Source :=
  (attrs.map mkSource).filter validSource

/-- `candidate.groundingMetadata` object. -/
structure GroundingMetadata where
  groundingAttributions : Option (List Attribution)
deriving Repr, DecidableEq

/-- One part of the candidate content (`parts[i]`). -/
structure ContentPart where
  text : Option String
deriving Repr, DecidableEq

/-- `candidate.content`. -/
structure Content where
  parts : List ContentPart
deriving Repr, DecidableEq

/-- One response candidate. -/
structure Candidate where
  content : Option Content
  groundingMetadata : Option GroundingMetadata
deriving Repr, DecidableEq

/-- The parsed upstream JSON result (`geminiResult` / `result.response`). -/
structure GeminiResult where
  candidates : List Candidate
deriving Repr, DecidableEq

/-- `sources` computation shared by all variants, starting from the first
candidate: `if (groundingMetadata && groundingMetadata.groundingAttributions)`
(a JS array, even empty, is truthy, so only absence of the field matters). -/
def extractSources (cand : Option Candidate) : List Source :=
  match cand with
  | none => []
  | some c =>
    match c.groundingMetadata with
    | none => []
    | some gm =>
      match gm.groundingAttributions with
      | none => []
      | some attrs => extractList attrs

/-- The tool objects that may appear in the outbound `tools` array. -/
inductive Tool
  | googleSearch
deriving Repr, DecidableEq

/-- One outbound upstream request, as the handler builds it: its `tools`
field (`none` models the field set to `undefined`), the system prompt and the
user content text. -/
structure UpstreamCall where
  tools : Option (List Tool)
  systemPrompt : String
  userText : String
deriving Repr, DecidableEq

/-- Whether a search-tool declaration is attached to an outbound request. -/
def searchAttached (c : UpstreamCall) : Bool :=
  match c.tools with
  | none => false
  | some ts => ts.contains Tool.googleSearch

/-- The four fields destructured from the inbound JSON body. -/
structure ReqBody where
  resumeText : Option String
  type : Option String
  location : Option String
  datePosted : Option String
deriving Repr, DecidableEq

/-- What an invocation of a handler produces: HTTP status, the fields present
in the JSON response body (`JSON.stringify` drops `undefined`-valued fields),
and the outbound upstream calls issued, in order. -/
structure Outcome where
  status : Nat
  text : Option String
  sources : Option (List Source)
  error : Option String
  calls : List UpstreamCall
deriving Repr, DecidableEq

/-! ## Pages variant — `src/functions/api/getAnalysis.js` (`onRequestPost`) -/

namespace Pages

/-- Jobs template up to the `${location || 'any'}` interpolation. -/
def jobsPromptA : String :=
  "\n                    You are an expert AI job search assistant.\n                    1.  Analyze the provided resume (text provided by the user).\n                    2.  Use the Google Search tool to find relevant, recent job postings.\n                    3.  **FILTER** your search based on these user-provided filters:\n                        - Location: \""

/-- Jobs template between the two interpolations. -/
def jobsPromptB : String :=
  "\"\n                        - Date Posted: \""

/-- Jobs template after the `${datePosted || 'any'}` interpolation. -/
def jobsPromptC : String :=
  "\"\n                    4.  Return a list of around 20 of the **most relevant** job postings.\n                    5.  **CRITICAL:** You MUST format each posting as a Markdown link: [Job Title - Company](ORIGINAL_JOB_POSTING_URL). Do not return links to Google search results.\n                    6.  After the job list, create a section named \"## Networking Contacts\" and find 3-5 relevant networking contacts (Recruiters, Hiring Managers) at those companies.\n                    7.  Format contacts as: [Full Name - Title at Company](LinkedIn_URL or Company_Profile_URL).\n                    8.  If no jobs or contacts are found, state that clearly. Do not invent results.\n                "

/-- The `'jobs'` case: template literal with `${location || 'any'}` and
`${datePosted || 'any'}` interpolations. -/
def jobsPrompt (location datePosted : Option String) : String :=
  jobsPromptA ++ jsOr location "any" ++ jobsPromptB ++ jsOr datePosted "any" ++ jobsPromptC

/-- The `'critique'` case (no interpolation). -/
def critiquePrompt : String :=
  "\n                    You are an expert resume reviewer.\n                    1.  Analyze the provided resume (text provided by the user).\n                    2.  Provide a concise, constructive critique.\n                    3.  Structure your critique with a \"## Resume Critique\" header.\n                    4.  Include sections for \"Strengths\" and \"Areas for Improvement\".\n                    5.  Use bullet points for clear, actionable advice.\n                    6.  Do NOT use the Google Search tool. Base your critique only on the text.\n                "

/-- Contacts template up to the `${location || 'any'}` interpolation. -/
def contactsPromptA : String :=
  "\n                    You are an expert networking assistant.\n                    1.  Analyze the provided resume to understand the user\x27s industry and key roles (text provided by the user).\n                    2.  Use the Google Search tool to find 5-10 relevant networking contacts (Recruiters, Hiring Managers, industry leaders) based on that resume.\n                    3.  **FILTER** your search based on the user-provided location: \""

/-- Contacts template after the interpolation. -/
def contactsPromptB : String :=
  "\".\n                    4.  Return a list with a \"## Networking Contacts\" header.\n                    5.  **CRITICAL:** You MUST format each contact as: [Full Name - Title at Company](LinkedIn_URL or Company_Profile_URL).\n                    6.  Do not return links to Google search results.\n                "

/-- The `'contacts'` case. -/
def contactsPrompt (location : Option String) : String :=
  contactsPromptA ++ jsOr location "any" ++ contactsPromptB

/-- The `switch (type)` of `onRequestPost`: yields the system prompt and the
`tools` array for the three recognised types; `none` models the `default`
branch throwing `"Invalid analysis type."`. -/
def selectPrompt (type location datePosted : Option String) :
    Option (String × List Tool) :=
  if type == some "jobs" then some (jobsPrompt location datePosted, [Tool.googleSearch])
  else if type == some "critique" then some (critiquePrompt, [])
  else if type == some "contacts" then some (contactsPrompt location, [Tool.googleSearch])
  else none

/-- `candidate?.content?.parts?.[0]?.text || "No response text found."`. -/
def extractText (r : GeminiResult) : String :=
  jsOr ((((r.candidates.head?).bind Candidate.content).bind
    (fun c => c.parts.head?)).bind ContentPart.text) "No response text found."

/-- The upstream `fetch` result: `ok` flag, the error body message
(`errorBody.error?.message`) when not ok, and the parsed JSON result. -/
structure Upstream where
  ok : Bool
  errMessage : Option String
  result : GeminiResult
deriving Repr, DecidableEq

/-- `onRequestPost`: no body validation; missing key throws (caught → 500);
unknown type throws (caught → 500); otherwise one `fetch` call; `!ok` throws
the upstream message (caught → 500); else the `{text, sources}` payload. -/
def onRequestPost (body : ReqBody) (apiKey : Option String) (up : Upstream) :
    Outcome :=
  if !truthy apiKey then
    { status := 500, text := none, sources := none,
      error := some "API key is not configured.", calls := [] }
  else
    match selectPrompt body.type body.location body.datePosted with
    | none =>
      { status := 500, text := none, sources := none,
        error := some "Invalid analysis type.", calls := [] }
    | some (sp, tools) =>
      let call : UpstreamCall :=
        { tools := some tools, systemPrompt := sp,
          userText := "Here is my resume:\n\n" ++ interp body.resumeText }
      if !up.ok then
        { status := 500, text := none, sources := none,
          error := some (jsOr up.errMessage "Failed to call Gemini API."),
          calls := [call] }
      else
        { status := 200, text := some (extractText up.result),
          sources := some (extractSources up.result.candidates.head?),
          error := none, calls := [call] }

end Pages

/-! ## Vercel variant — `src/untitled folder 9/API/gtAnalysis.js` -/

/-- JS `String.prototype.replace` with a string pattern: replaces only the
FIRST occurrence (used as `datePosted.replace("_", " ")`). -/
def replaceFirst (s pat repl : String) : String :=
  match s.splitOn pat with
  | [] => s
  | [_] => s
  | p :: rest => p ++ repl ++ String.intercalate pat rest

namespace Vercel

/-- The `filterString` built at the top of `getSystemPrompt`: location part,
then a date part unless `datePosted` is falsy or `"any"`, wrapped in the
CRITICAL sentence when non-empty. -/
def filterString (location datePosted : Option String) : String :=
  let fs :=
    (if truthy location then " (Location: " ++ location.getD "" ++ ")" else "")
    ++ (if truthy datePosted && !(datePosted.getD "" == "any")
        then " (Posted: " ++ replaceFirst (datePosted.getD "") "_" " " ++ ")"
        else "")
  if fs == "" then ""
  else "\n\n**CRITICAL: You MUST adhere to these filters: " ++ fs ++ "**"

/-- Jobs template of `getSystemPrompt` before the `${filterString}` line. -/
def jobsBase : String :=
  "You are an expert AI job assistant. Your user has provided their resume.\n1.  First, you **MUST** use the Google Search tool to find around 20 relevant job postings based on the user\x27s resume.\n2.  You **MUST** format the job title as a markdown link pointing **directly to the original job posting URL (e.g., Greenhouse, Lever, or the company\x27s career page)**, NOT a link to a Google search.\n3.  **DO NOT** return links to job boards like LinkedIn, Indeed, or ZipRecruiter. Only return direct, original application links.\n4.  After the jobs, provide a new section titled \"## Networking Contacts\" and find 3-5 relevant networking contacts (like recruiters, hiring managers, or team leads) at those companies.\n5.  Format the output clearly using Markdown (headers, bold text, and bullet points).\n"

/-- Critique template of `getSystemPrompt` (no filter interpolation). -/
def critiqueBase : String :=
  "You are an expert resume critique assistant. Your user has provided their resume.\n1.  Provide a concise, professional, and constructive critique of the resume.\n2.  Give actionable advice on how to improve it, focusing on clarity, impact, and keywords.\n3.  Use bullet points to make the advice easy to read.\n4.  Do not use Google Search for this task."

/-- Contacts template of `getSystemPrompt` before the `${filterString}` line. -/
def contactsBase : String :=
  "You are an expert AI networking assistant. Your user has provided their resume.\n1.  You **MUST** use the Google Search tool.\n2.  Find 5-10 relevant networking contacts (recruiters, hiring managers, team leads) at companies that would likely hire someone with this resume.\n3.  Provide their name, title, company, and if possible, a link to their public profile (like LinkedIn or a company bio).\n4.  Format the output clearly using Markdown.\n"

/-- The generic `default` branch prompt of `getSystemPrompt`. -/
def defaultBase : String :=
  "You are a helpful assistant. Please analyze the provided text."

/-- `getSystemPrompt(type, location, datePosted)`. -/
def getSystemPrompt (type : String) (location datePosted : Option String) :
    String :=
  if type == "jobs" then jobsBase ++ filterString location datePosted
  else if type == "critique" then critiqueBase
  else if type == "contacts" then contactsBase ++ filterString location datePosted
  else defaultBase

/-- `result.response.candidates[0].content.parts[0].text`: JS member access on
`undefined` throws a `TypeError` (caught by the handler); reading an absent
`.text` property on an existing part yields `undefined` without throwing. -/
def extractText (r : GeminiResult) : Except String (Option String) :=
  match r.candidates.head? with
  | none => .error "Cannot read properties of undefined (reading \x27content\x27)"
  | some c =>
    match c.content with
    | none => .error "Cannot read properties of undefined (reading \x27parts\x27)"
    | some ct =>
      match ct.parts.head? with
      | none => .error "Cannot read properties of undefined (reading \x27text\x27)"
      | some p => .ok p.text

/-- The Vercel `handler`: key check (500), method check (405), `resumeText`
and `type` checks (400), then one `generateContent` call whose `tools` field
is the ternary `(type === 'jobs' || type === 'contacts') ? tools : undefined`;
any exception thrown by the call or by response access is caught → 500. -/
def handler (body : ReqBody) (apiKey : Option String) (method : String)
    (up : Except String GeminiResult) : Outcome :=
  if !truthy apiKey then
    { status := 500, text := none, sources := none,
      error := some "API key is missing. Please add GEMINI_API_KEY to your Vercel Environment Variables.",
      calls := [] }
  else if !(method == "POST") then
    { status := 405, text := none, sources := none,
      error := some "Method Not Allowed (must be POST)", calls := [] }
  else if !truthy body.resumeText then
    { status := 400, text := none, sources := none,
      error := some "Resume text is required.", calls := [] }
  else if !truthy body.type then
    { status := 400, text := none, sources := none,
      error := some "Analysis type is required.", calls := [] }
  else
    let t := body.type.getD ""
    let call : UpstreamCall :=
      { tools := if t == "jobs" || t == "contacts"
                 then some [Tool.googleSearch] else none,
        systemPrompt := getSystemPrompt t body.location body.datePosted,
        userText := body.resumeText.getD "" }
    match up with
    | .error msg =>
      { status := 500, text := none, sources := none,
        error := some ("Error generating content: " ++ msg), calls := [call] }
    | .ok r =>
      match extractText r with
      | .error msg =>
        { status := 500, text := none, sources := none,
          error := some ("Error generating content: " ++ msg), calls := [call] }
      | .ok t0 =>
        { status := 200, text := t0,
          sources := some (extractSources r.candidates.head?),
          error := none, calls := [call] }

end Vercel

/-! ## Worker variant — `src/untitled folder 9/functions:/api:/getAnalysis.js`
(`onRequest`). Same control flow as the Vercel handler; its `getSystemPrompt`
copy differs only in the critique wording, and its key error message names
Cloudflare. -/

namespace Worker

/-- Critique template of the Worker copy of `getSystemPrompt` (its line 2
ends in `"improve it,."`). -/
def critiqueBase : String :=
  "You are an expert resume critique assistant. Your user has provided their resume.\n1.  Provide a concise, professional, and constructive critique of the resume.\n2.  Give actionable advice on how to improve it,.\n3.  Use bullet points to make the advice easy to read.\n4.  Do not use Google Search for this task."

/-- The Worker copy of `getSystemPrompt`: identical `filterString`, jobs and
contacts templates; only the critique wording differs. -/
def getSystemPrompt (type : String) (location datePosted : Option String) :
    String :=
  if type == "jobs" then Vercel.jobsBase ++ Vercel.filterString location datePosted
  else if type == "critique" then critiqueBase
  else if type == "contacts" then Vercel.contactsBase ++ Vercel.filterString location datePosted
  else Vercel.defaultBase

/-- The Worker `onRequest`: key check (500), method check (405), body
validations (400), one `generateContent` call, catch-all → 500. -/
def onRequest (body : ReqBody) (apiKey : Option String) (method : String)
    (up : Except String GeminiResult) : Outcome :=
  if !truthy apiKey then
    { status := 500, text := none, sources := none,
      error := some "API key is missing. Please add GEMINI_API_KEY to your Cloudflare project.",
      calls := [] }
  else if !(method == "POST") then
    { status := 405, text := none, sources := none,
      error := some "Method Not Allowed (must be POST)", calls := [] }
  else if !truthy body.resumeText then
    { status := 400, text := none, sources := none,
      error := some "Resume text is required.", calls := [] }
  else if !truthy body.type then
    { status := 400, text := none, sources := none,
      error := some "Analysis type is required.", calls := [] }
  else
    let t := body.type.getD ""
    let call : UpstreamCall :=
      { tools := if t == "jobs" || t == "contacts"
                 then some [Tool.googleSearch] else none,
        systemPrompt := getSystemPrompt t body.location body.datePosted,
        userText := body.resumeText.getD "" }
    match up with
    | .error msg =>
      { status := 500, text := none, sources := none,
        error := some ("Error generating content: " ++ msg), calls := [call] }
    | .ok r =>
      match Vercel.extractText r with
      | .error msg =>
        { status := 500, text := none, sources := none,
          error := some ("Error generating content: " ++ msg), calls := [call] }
      | .ok t0 =>
        { status := 200, text := t0,
          sources := some (extractSources r.candidates.head?),
          error := none, calls := [call] }

end Worker

/-! ## Helper lemmas and sample inputs -/

lemma string_append_eq_empty {a b : String} : a ++ b = "" ↔ a = "" ∧ b = "" := by
  constructor
  · intro h
    have hd : a.data ++ b.data = [] := by
      have := congrArg String.data h
      simpa using this
    rcases List.append_eq_nil.mp hd with ⟨ha, hb⟩
    refine ⟨?_, ?_⟩
    · cases a; simp at ha; simp [ha]
    · cases b; simp at hb; simp [hb]
  · rintro ⟨rfl, rfl⟩; rfl

lemma jsOr_of_falsy {o : Option String} (h : truthy o = false) (d : String) :
    jsOr o d = d := by
  cases o with
  | none => rfl
  | some s =>
    simp [truthy] at h
    simp [jsOr, h]

/-- A well-formed upstream result: one candidate whose first part says
`"hello"`, no grounding metadata. -/
def resultHello : GeminiResult :=
  { candidates := [{ content := some { parts := [{ text := some "hello" }] },
                     groundingMetadata := none }] }

/-- An upstream result whose first candidate's first content part has no
`text` field. -/
def resultNoText : GeminiResult :=
  { candidates := [{ content := some { parts := [{ text := none }] },
                     groundingMetadata := none }] }

/-- A grounding attribution with non-empty `uri` and `title`. -/
def attrGood : Attribution :=
  { web := some { uri := some "https://a.example/job", title := some "Job A" } }

/-- A grounding attribution whose `title` is the empty string. -/
def attrEmptyTitle : Attribution :=
  { web := some { uri := some "https://b.example/job", title := some "" } }

/-- An upstream result with two grounding attributions, one malformed
(empty title), whose first part has no `text` field. -/
def resultNoTextWithSources : GeminiResult :=
  { candidates := [{ content := some { parts := [{ text := none }] },
                     groundingMetadata :=
                       some { groundingAttributions :=
                                some [attrGood, attrEmptyTitle] } }] }

/-- An upstream result with the two attributions above and text present. -/
def resultTwoAttrs : GeminiResult :=
  { candidates := [{ content := some { parts := [{ text := some "hello" }] },
                     groundingMetadata :=
                       some { groundingAttributions :=
                                some [attrGood, attrEmptyTitle] } }] }

/-! ## Claim C1 — unknown `type` -/

/-- Claim C1, counterexample: in the Vercel variant, a request with
`type: "unknown"` (non-empty `resumeText`, key configured) does NOT fail
with an invalid-type error: exactly one upstream call is issued and the
handler answers 200 via the `default` fallback prompt of `getSystemPrompt`. -/
theorem c1_counterexample :
    (Vercel.handler ⟨some "Jane", some "unknown", none, none⟩ (some "k") "POST"
      (.ok resultHello)).calls.length = 1 ∧
    (Vercel.handler ⟨some "Jane", some "unknown", none, none⟩ (some "k") "POST"
      (.ok resultHello)).status = 200 ∧
    (Vercel.handler ⟨some "Jane", some "unknown", none, none⟩ (some "k") "POST"
      (.ok resultHello)).error = none := by
  refine ⟨rfl, rfl, rfl⟩

/-- Claim C1 (amended): in the Pages variant, any `type` outside
`jobs`/`critique`/`contacts` fails with the `"Invalid analysis type."` error
(HTTP 500) and issues no upstream call; in the Vercel and Worker variants
such a `type`, when non-empty, instead reaches the upstream API through the
generic fallback prompt, issuing exactly one call. -/
theorem c1_invalid_type (body : ReqBody) (key : Option String)
    (upP : Pages.Upstream) (up : Except String GeminiResult)
    (hkey : truthy key = true)
    (hj : body.type ≠ some "jobs") (hc : body.type ≠ some "critique")
    (hn : body.type ≠ some "contacts") :
    (Pages.onRequestPost body key upP).status = 500 ∧
    (Pages.onRequestPost body key upP).error = some "Invalid analysis type." ∧
    (Pages.onRequestPost body key upP).calls = [] ∧
    (truthy body.resumeText = true → truthy body.type = true →
      (Vercel.handler body key "POST" up).calls.length = 1 ∧
      (Worker.onRequest body key "POST" up).calls.length = 1) := by
  have hsel : Pages.selectPrompt body.type body.location body.datePosted = none := by
    simp [Pages.selectPrompt, hj, hc, hn]
  refine ⟨?_, ?_, ?_, ?_⟩
  · simp [Pages.onRequestPost, hkey, hsel]
  · simp [Pages.onRequestPost, hkey, hsel]
  · simp [Pages.onRequestPost, hkey, hsel]
  · intro hrt ht
    constructor
    · unfold Vercel.handler
      simp only [hkey, hrt, ht]
      rcases up with msg | r
      · simp
      · rcases h : Vercel.extractText r with m | t0 <;> simp [h]
    · unfold Worker.onRequest
      simp only [hkey, hrt, ht]
      rcases up with msg | r
      · simp
      · rcases h : Vercel.extractText r with m | t0 <;> simp [h]

/-- Claim C1, witness: `c1_invalid_type` instantiated at `type = "unknown"`. -/
theorem c1_witness :
    (Pages.onRequestPost ⟨some "Jane", some "unknown", none, none⟩ (some "k")
      ⟨true, none, resultHello⟩).status = 500 ∧
    (Pages.onRequestPost ⟨some "Jane", some "unknown", none, none⟩ (some "k")
      ⟨true, none, resultHello⟩).error = some "Invalid analysis type." ∧
    (Pages.onRequestPost ⟨some "Jane", some "unknown", none, none⟩ (some "k")
      ⟨true, none, resultHello⟩).calls = [] ∧
    (truthy (some "Jane" : Option String) = true →
      truthy (some "unknown" : Option String) = true →
      (Vercel.handler ⟨some "Jane", some "unknown", none, none⟩ (some "k") "POST"
        (.ok resultHello)).calls.length = 1 ∧
      (Worker.onRequest ⟨some "Jane", some "unknown", none, none⟩ (some "k") "POST"
        (.ok resultHello)).calls.length = 1) :=
  c1_invalid_type ⟨some "Jane", some "unknown", none, none⟩ (some "k")
    ⟨true, none, resultHello⟩ (.ok resultHello) (by decide) (by decide) (by decide)
    (by decide)

/-! ## Claim C2 — missing `resumeText`/`type` -/

/-- Claim C2, counterexample: the Pages variant performs no body validation:
with `resumeText` missing (and a valid `type`), it answers 200 and still
issues the upstream call, instead of failing with a 400 validation error. -/
theorem c2_counterexample :
    (Pages.onRequestPost ⟨none, some "critique", none, none⟩ (some "k")
      ⟨true, none, resultHello⟩).status = 200 ∧
    (Pages.onRequestPost ⟨none, some "critique", none, none⟩ (some "k")
      ⟨true, none, resultHello⟩).calls.length = 1 ∧
    (Pages.onRequestPost ⟨none, some "critique", none, none⟩ (some "k")
      ⟨true, none, resultHello⟩).error = none := by
  refine ⟨rfl, rfl, rfl⟩

/-- Claim C2 (amended): in the Vercel and Worker variants, given a configured
key, a POST request with missing/empty `resumeText` or `type` fails with
HTTP 400 and issues no upstream call, regardless of the other fields; the
Pages variant performs no such validation (see `c2_counterexample`). -/
theorem c2_validation (body : ReqBody) (key : Option String)
    (up : Except String GeminiResult)
    (hkey : truthy key = true)
    (h : truthy body.resumeText = false ∨ truthy body.type = false) :
    (Vercel.handler body key "POST" up).status = 400 ∧
    (Vercel.handler body key "POST" up).calls = [] ∧
    (Worker.onRequest body key "POST" up).status = 400 ∧
    (Worker.onRequest body key "POST" up).calls = [] := by
  cases hrt : truthy body.resumeText with
  | false =>
    refine ⟨?_, ?_, ?_, ?_⟩ <;>
      simp [Vercel.handler, Worker.onRequest, hkey, hrt]
  | true =>
    rcases h with h | h
    · rw [hrt] at h; exact absurd h (by simp)
    · refine ⟨?_, ?_, ?_, ?_⟩ <;>
        simp [Vercel.handler, Worker.onRequest, hkey, hrt, h]

/-! ## Claim C3 — search tool attached iff `jobs`/`contacts` -/

lemma getD_eq_iff (o : Option String) (s : String) (ho : truthy o = true) :
    (o.getD "" = s) ↔ o = some s := by
  cases o with
  | none => simp [truthy] at ho
  | some a => simp

lemma search_ternary (o : Option String) (p u : String) (ho : truthy o = true) :
    searchAttached ⟨if (o.getD "" = "jobs" ∨ o.getD "" = "contacts")
                    then some [Tool.googleSearch] else none, p, u⟩ = true ↔
      (o = some "jobs" ∨ o = some "contacts") := by
  rcases o with _ | s
  · simp [truthy] at ho
  · by_cases hs : s = "jobs"
    · subst hs; simp [searchAttached]
    · by_cases hc : s = "contacts"
      · subst hc; simp [searchAttached]
      · simp [searchAttached, hs, hc]

/-- Claim C3 (confirmed): in all three variants, every outbound upstream
request carries a search-tool declaration exactly when the request `type` is
`jobs` or `contacts`; for `critique` — and, in the Vercel/Worker variants,
for any other type that reaches the call — no search tool is attached
(Pages sends `tools: []`, Vercel/Worker send `tools: undefined`). -/
theorem c3_search_tool (body : ReqBody) (key : Option String) (m : String)
    (up : Except String GeminiResult) (upP : Pages.Upstream) (c : UpstreamCall) :
    (c ∈ (Vercel.handler body key m up).calls →
      (searchAttached c = true ↔
        (body.type = some "jobs" ∨ body.type = some "contacts"))) ∧
    (c ∈ (Worker.onRequest body key m up).calls →
      (searchAttached c = true ↔
        (body.type = some "jobs" ∨ body.type = some "contacts"))) ∧
    (c ∈ (Pages.onRequestPost body key upP).calls →
      (searchAttached c = true ↔
        (body.type = some "jobs" ∨ body.type = some "contacts"))) := by
  by_cases hkey : truthy key = true
  case neg =>
    have hk : truthy key = false := by simpa using hkey
    refine ⟨?_, ?_, ?_⟩ <;>
      simp [Vercel.handler, Worker.onRequest, Pages.onRequestPost, hk]
  case pos =>
  refine ⟨?_, ?_, ?_⟩
  · unfold Vercel.handler
    by_cases hm : (m == "POST") = true
    · cases hrt : truthy body.resumeText with
      | false => simp [hkey, hm, hrt]
      | true =>
        cases ht : truthy body.type with
        | false => simp [hkey, hm, hrt, ht]
        | true =>
          simp only [hkey, hm, hrt, ht, Bool.not_true, Bool.false_eq_true,
            if_false, if_true]
          rcases up with msg | r
          · intro hc
            simp at hc
            subst hc
            exact search_ternary body.type _ _ ht
          · rcases h : Vercel.extractText r with msg | t0 <;>
              · simp only [h]
                intro hc
                simp at hc
                subst hc
                exact search_ternary body.type _ _ ht
    · have hm' : (m == "POST") = false := by simpa using hm
      simp [hkey, hm']
  · unfold Worker.onRequest
    by_cases hm : (m == "POST") = true
    · cases hrt : truthy body.resumeText with
      | false => simp [hkey, hm, hrt]
      | true =>
        cases ht : truthy body.type with
        | false => simp [hkey, hm, hrt, ht]
        | true =>
          simp only [hkey, hm, hrt, ht, Bool.not_true, Bool.false_eq_true,
            if_false, if_true]
          rcases up with msg | r
          · intro hc
            simp at hc
            subst hc
            exact search_ternary body.type _ _ ht
          · rcases h : Vercel.extractText r with msg | t0 <;>
              · simp only [h]
                intro hc
                simp at hc
                subst hc
                exact search_ternary body.type _ _ ht
    · have hm' : (m == "POST") = false := by simpa using hm
      simp [hkey, hm']
  · unfold Pages.onRequestPost
    rcases body.type with _ | s
    · simp [Pages.selectPrompt, hkey]
    · by_cases hs : s = "jobs"
      · subst hs
        simp only [Pages.selectPrompt, hkey]
        cases ho : upP.ok <;>
          · intro hc
            simp at hc
            subst hc
            simp [searchAttached]
      · by_cases hc2 : s = "critique"
        · subst hc2
          simp only [Pages.selectPrompt, hkey]
          cases ho : upP.ok <;>
            · intro hc
              simp at hc
              subst hc
              simp [searchAttached]
        · by_cases hc3 : s = "contacts"
          · subst hc3
            simp only [Pages.selectPrompt, hkey]
            cases ho : upP.ok <;>
              · intro hc
                simp at hc
                subst hc
                simp [searchAttached]
          · simp [Pages.selectPrompt, hkey, hs, hc2, hc3]

/-- Claim C2, witness: `c2_validation` at a request with no `resumeText`. -/
theorem c2_witness :
    (Vercel.handler ⟨none, some "critique", none, none⟩ (some "k") "POST"
      (.ok resultHello)).status = 400 ∧
    (Vercel.handler ⟨none, some "critique", none, none⟩ (some "k") "POST"
      (.ok resultHello)).calls = [] ∧
    (Worker.onRequest ⟨none, some "critique", none, none⟩ (some "k") "POST"
      (.ok resultHello)).status = 400 ∧
    (Worker.onRequest ⟨none, some "critique", none, none⟩ (some "k") "POST"
      (.ok resultHello)).calls = [] :=
  c2_validation ⟨none, some "critique", none, none⟩ (some "k") (.ok resultHello)
    (by decide) (Or.inl (by decide))

/-! ## Claim C4 — `sources` filtering -/

/-- Claim C4 (confirmed): a `sources` entry is kept if and only if both its
`uri` and `title` are present and non-empty (`validSource`); malformed
attributions are dropped by the total map-then-filter, never raising an
error; and on the concrete upstream response with two attributions, one with
an empty title, exactly one entry survives, with the handler answering 200. -/
theorem c4_sources_valid (attrs : List Attribution) :
    (extractList attrs = attrs.filterMap
      (fun a => if validSource (mkSource a) then some (mkSource a) else none)) ∧
    (∀ s : Source, s ∈ extractList attrs ↔
      ((∃ a ∈ attrs, mkSource a = s) ∧ validSource s = true)) ∧
    extractList [attrGood, attrEmptyTitle] = [mkSource attrGood] ∧
    (Pages.onRequestPost ⟨some "Jane", some "jobs", none, none⟩ (some "k")
      ⟨true, none, resultTwoAttrs⟩).status = 200 ∧
    (Pages.onRequestPost ⟨some "Jane", some "jobs", none, none⟩ (some "k")
      ⟨true, none, resultTwoAttrs⟩).sources = some [mkSource attrGood] := by
  refine ⟨?_, ?_, ?_, rfl, rfl⟩
  · induction attrs with
    | nil => rfl
    | cons a l ih =>
      by_cases h : validSource (mkSource a) = true
      · simp [extractList, List.filterMap_cons, h] at ih ⊢
        exact ih
      · have h' : validSource (mkSource a) = false := by simpa using h
        simp [extractList, List.filterMap_cons, h'] at ih ⊢
        exact ih
  · intro s
    simp [extractList, List.mem_filter, List.mem_map]
  · rfl

/-! ## Claim C5 — missing response text -/

/-- Claim C5, counterexample: in the Vercel variant, when the first
candidate's first content part has no `text`, the handler answers 200 but
the body carries NO `text` field at all (`undefined` is dropped by
`JSON.stringify`) — the literal placeholder is never produced there. -/
theorem c5_counterexample :
    (Vercel.handler ⟨some "Jane", some "critique", none, none⟩ (some "k") "POST"
      (.ok resultNoText)).status = 200 ∧
    (Vercel.handler ⟨some "Jane", some "critique", none, none⟩ (some "k") "POST"
      (.ok resultNoText)).text = none ∧
    (Vercel.handler ⟨some "Jane", some "critique", none, none⟩ (some "k") "POST"
      (.ok resultNoText)).text ≠ some "No response text found." := by
  refine ⟨rfl, rfl, by decide⟩

/-- Claim C5 (amended): only the Pages variant defaults to the literal
placeholder: whenever its upstream call succeeds and the first candidate's
first content part has no (or an empty) `text`, the handler still answers 200
with `text = "No response text found."`; the Vercel/Worker variants instead
emit a 200 body without a `text` field (see `c5_counterexample`). -/
theorem c5_no_text_placeholder (body : ReqBody) (key : Option String)
    (upP : Pages.Upstream)
    (hkey : truthy key = true)
    (hok : upP.ok = true)
    (hsel : Pages.selectPrompt body.type body.location body.datePosted ≠ none)
    (htext : truthy ((((upP.result.candidates.head?).bind Candidate.content).bind
      (fun c => c.parts.head?)).bind ContentPart.text) = false) :
    (Pages.onRequestPost body key upP).status = 200 ∧
    (Pages.onRequestPost body key upP).text = some "No response text found." := by
  rcases h' : Pages.selectPrompt body.type body.location body.datePosted with _ | pr
  · exact absurd h' hsel
  · constructor <;>
      simp [Pages.onRequestPost, hkey, h', hok, Pages.extractText,
        jsOr_of_falsy htext]

/-- Claim C5, witness: `c5_no_text_placeholder` at a `critique` request whose
upstream response's first part has no `text`. -/
theorem c5_witness :
    (Pages.onRequestPost ⟨some "Jane", some "critique", none, none⟩ (some "k")
      ⟨true, none, resultNoText⟩).status = 200 ∧
    (Pages.onRequestPost ⟨some "Jane", some "critique", none, none⟩ (some "k")
      ⟨true, none, resultNoText⟩).text = some "No response text found." :=
  c5_no_text_placeholder ⟨some "Jane", some "critique", none, none⟩ (some "k")
    ⟨true, none, resultNoText⟩ (by decide) rfl (by decide) (by decide)

/-! ## Claim C6 — missing API credential -/

/-- Claim C6 (confirmed): in all three variants, when the upstream credential
is absent (falsy) the handler fails with HTTP 500 and the variant's
configuration-error message, issuing no upstream call, whatever the request
body or method. -/
theorem c6_missing_key (body : ReqBody) (m : String)
    (up : Except String GeminiResult) (upP : Pages.Upstream)
    (key : Option String) (hkey : truthy key = false) :
    (Pages.onRequestPost body key upP).status = 500 ∧
    (Pages.onRequestPost body key upP).error = some "API key is not configured." ∧
    (Pages.onRequestPost body key upP).calls = [] ∧
    (Vercel.handler body key m up).status = 500 ∧
    (Vercel.handler body key m up).error =
      some "API key is missing. Please add GEMINI_API_KEY to your Vercel Environment Variables." ∧
    (Vercel.handler body key m up).calls = [] ∧
    (Worker.onRequest body key m up).status = 500 ∧
    (Worker.onRequest body key m up).error =
      some "API key is missing. Please add GEMINI_API_KEY to your Cloudflare project." ∧
    (Worker.onRequest body key m up).calls = [] := by
  refine ⟨?_,?_,?_,?_,?_,?_,?_,?_,?_⟩ <;>
    simp [Pages.onRequestPost, Vercel.handler, Worker.onRequest, hkey]

/-- Claim C6, witness: `c6_missing_key` at an input that is also otherwise
invalid (no `resumeText`, unknown `type`, method GET). -/
theorem c6_witness :
    (Pages.onRequestPost ⟨none, some "unknown", none, none⟩ none
      ⟨true, none, resultHello⟩).status = 500 ∧
    (Pages.onRequestPost ⟨none, some "unknown", none, none⟩ none
      ⟨true, none, resultHello⟩).error = some "API key is not configured." ∧
    (Pages.onRequestPost ⟨none, some "unknown", none, none⟩ none
      ⟨true, none, resultHello⟩).calls = [] ∧
    (Vercel.handler ⟨none, some "unknown", none, none⟩ none "GET"
      (.ok resultHello)).status = 500 ∧
    (Vercel.handler ⟨none, some "unknown", none, none⟩ none "GET"
      (.ok resultHello)).error =
      some "API key is missing. Please add GEMINI_API_KEY to your Vercel Environment Variables." ∧
    (Vercel.handler ⟨none, some "unknown", none, none⟩ none "GET"
      (.ok resultHello)).calls = [] ∧
    (Worker.onRequest ⟨none, some "unknown", none, none⟩ none "GET"
      (.ok resultHello)).status = 500 ∧
    (Worker.onRequest ⟨none, some "unknown", none, none⟩ none "GET"
      (.ok resultHello)).error =
      some "API key is missing. Please add GEMINI_API_KEY to your Cloudflare project." ∧
    (Worker.onRequest ⟨none, some "unknown", none, none⟩ none "GET"
      (.ok resultHello)).calls = [] :=
  c6_missing_key ⟨none, some "unknown", none, none⟩ "GET" (.ok resultHello)
    ⟨true, none, resultHello⟩ none rfl

/-! ## Claim C7 — non-POST method -/

/-- Claim C7, counterexample: a non-POST request does not always yield the
405 method error — in the Vercel variant the key check precedes the method
check, so with the credential missing a GET request yields 500 with the
configuration-error message instead of 405. -/
theorem c7_counterexample :
    (Vercel.handler ⟨some "Jane", some "critique", none, none⟩ none "GET"
      (.ok resultHello)).status = 500 ∧
    (Vercel.handler ⟨some "Jane", some "critique", none, none⟩ none "GET"
      (.ok resultHello)).error =
      some "API key is missing. Please add GEMINI_API_KEY to your Vercel Environment Variables." ∧
    (Vercel.handler ⟨some "Jane", some "critique", none, none⟩ none "GET"
      (.ok resultHello)).status ≠ 405 := by
  refine ⟨rfl, rfl, by decide⟩

/-- Claim C7 (amended): in the Vercel and Worker variants (the ones that see
the method), provided the credential is configured, every non-POST request
fails with HTTP 405 `"Method Not Allowed (must be POST)"` and issues no
upstream call; with the credential missing, the 500 configuration error
takes precedence (see `c7_counterexample`). -/
theorem c7_method_not_post (body : ReqBody) (key : Option String) (m : String)
    (up : Except String GeminiResult)
    (hkey : truthy key = true) (hm : m ≠ "POST") :
    (Vercel.handler body key m up).status = 405 ∧
    (Vercel.handler body key m up).error = some "Method Not Allowed (must be POST)" ∧
    (Vercel.handler body key m up).calls = [] ∧
    (Worker.onRequest body key m up).status = 405 ∧
    (Worker.onRequest body key m up).error = some "Method Not Allowed (must be POST)" ∧
    (Worker.onRequest body key m up).calls = [] := by
  have hm' : (m == "POST") = false := by simpa using hm
  refine ⟨?_,?_,?_,?_,?_,?_⟩ <;>
    simp [Vercel.handler, Worker.onRequest, hkey, hm']

/-- Claim C7, witness: `c7_method_not_post` at a GET request. -/
theorem c7_witness :
    (Vercel.handler ⟨some "Jane", some "critique", none, none⟩ (some "k") "GET"
      (.ok resultHello)).status = 405 ∧
    (Vercel.handler ⟨some "Jane", some "critique", none, none⟩ (some "k") "GET"
      (.ok resultHello)).error = some "Method Not Allowed (must be POST)" ∧
    (Vercel.handler ⟨some "Jane", some "critique", none, none⟩ (some "k") "GET"
      (.ok resultHello)).calls = [] ∧
    (Worker.onRequest ⟨some "Jane", some "critique", none, none⟩ (some "k") "GET"
      (.ok resultHello)).status = 405 ∧
    (Worker.onRequest ⟨some "Jane", some "critique", none, none⟩ (some "k") "GET"
      (.ok resultHello)).error = some "Method Not Allowed (must be POST)" ∧
    (Worker.onRequest ⟨some "Jane", some "critique", none, none⟩ (some "k") "GET"
      (.ok resultHello)).calls = [] :=
  c7_method_not_post ⟨some "Jane", some "critique", none, none⟩ (some "k") "GET"
    (.ok resultHello) (by decide) (by decide)

/-! ## Claim C10 — order preservation of `sources` -/

/-- Claim C10 (confirmed): the `sources` extraction is the filter of the
mapped attribution list, hence a sublist of it — valid `{uri, title}` pairs
appear in the same relative order as their attributions in the upstream
response. -/
theorem c10_sources_order (attrs : List Attribution) :
    extractList attrs = (attrs.map mkSource).filter validSource ∧
    List.Sublist (extractList attrs) (attrs.map mkSource) := by
  refine ⟨rfl, ?_⟩
  unfold extractList
  exact List.filter_sublist _

/-! ## Claim C8 — filter clauses in the system prompt -/

lemma wrap_ne_empty (s : String) :
    ("\n\n**CRITICAL: You MUST adhere to these filters: " ++ s ++ "**") ≠ "" := by
  intro h
  rw [string_append_eq_empty] at h
  exact absurd h.2 (by decide)

lemma locPart_ne_empty (x y : String) :
    ((" (Location: " ++ x ++ ")") ++ y) ≠ "" := by
  intro h
  rw [string_append_eq_empty] at h
  rcases h with ⟨h1, _⟩
  rw [string_append_eq_empty] at h1
  exact absurd h1.2 (by decide)

lemma datePart_ne_empty (x : String) :
    (" (Posted: " ++ x ++ ")") ≠ "" := by
  intro h
  rw [string_append_eq_empty] at h
  exact absurd h.2 (by decide)

lemma date_absent_iff (d : Option String) :
    ((truthy d && !(d.getD "" == "any")) = false) ↔
      (truthy d = false ∨ d = some "any") := by
  cases d with
  | none => simp [truthy]
  | some s =>
    by_cases hs : s = "any"
    · subst hs; simp [truthy]
    · simp [truthy, hs]

lemma filterString_empty_iff (location datePosted : Option String) :
    Vercel.filterString location datePosted = "" ↔
      (truthy location = false ∧
        (truthy datePosted = false ∨ datePosted = some "any")) := by
  unfold Vercel.filterString
  cases hl : truthy location with
  | true =>
    have hne := locPart_ne_empty (location.getD "")
      (if truthy datePosted && !(datePosted.getD "" == "any")
       then " (Posted: " ++ replaceFirst (datePosted.getD "") "_" " " ++ ")"
       else "")
    have hb := beq_eq_false_iff_ne.mpr hne
    simp [hl, hb, wrap_ne_empty]
    exact locPart_ne_empty _ _
  | false =>
    cases hd : (truthy datePosted && !(datePosted.getD "" == "any")) with
    | true =>
      have hne := datePart_ne_empty (replaceFirst (datePosted.getD "") "_" " ")
      have hne' : (("" : String) ++
          (" (Posted: " ++ replaceFirst (datePosted.getD "") "_" " " ++ ")")) ≠ "" := by
        rw [String.empty_append]; exact hne
      have hb := beq_eq_false_iff_ne.mpr hne'
      have hd1 : truthy datePosted = true := by
        cases h : truthy datePosted
        · rw [h] at hd; simp at hd
        · rfl
      have hd2 : (datePosted.getD "" == "any") = false := by
        cases h : (datePosted.getD "" == "any")
        · rfl
        · rw [h] at hd; simp [hd1] at hd
      simp only [hl, hd, if_true, if_false, hb, Bool.false_eq_true]
      constructor
      · intro h
        exact absurd h (wrap_ne_empty _)
      · rintro ⟨-, h | h⟩
        · rw [hd1] at h; exact absurd h (by simp)
        · subst h; simp at hd2
    | false =>
      simp only [hl, hd, if_false, Bool.false_eq_true]
      have : (("" : String) ++ "" == "") = true := by decide
      simp only [this, if_true]
      simp [(date_absent_iff datePosted).mp hd]

set_option maxRecDepth 8192 in
/-- Claim C8, counterexample: in the Pages variant, with both filters absent
the jobs prompt still contains filter text — the literal
`- Location: "any"` — because the template inlines
`${location || 'any'}`; indeed the prompt is identical to the one built from
`location = "any"`, `datePosted = "any"`. So "when both filters are absent
the prompt contains no filter clause" fails on this variant. -/
theorem c8_counterexample :
    List.IsInfix ("- Location: \"any\"").data (Pages.jobsPrompt none none).data ∧
    Pages.jobsPrompt none none = Pages.jobsPrompt (some "any") (some "any") := by
  constructor
  · decide
  · rfl

/-- Claim C8 (amended): in the `getSystemPrompt` of the Vercel/Worker
variants the claim holds: the filter string is empty exactly when `location`
is absent/empty and `datePosted` is absent/empty/`"any"`; it is appended to
the `jobs` and `contacts` prompts, never to `critique`; and with both
filters absent those prompts are exactly the base templates, with no filter
clause. The Pages variant instead inlines `location`/`datePosted` with the
placeholder `"any"`, so its jobs/contacts prompts always carry filter text
(see `c8_counterexample`). -/
theorem c8_filter_clause (location datePosted : Option String) :
    (Vercel.filterString location datePosted = "" ↔
      (truthy location = false ∧
        (truthy datePosted = false ∨ datePosted = some "any"))) ∧
    Vercel.getSystemPrompt "jobs" location datePosted =
      Vercel.jobsBase ++ Vercel.filterString location datePosted ∧
    Vercel.getSystemPrompt "contacts" location datePosted =
      Vercel.contactsBase ++ Vercel.filterString location datePosted ∧
    Vercel.getSystemPrompt "critique" location datePosted = Vercel.critiqueBase ∧
    Worker.getSystemPrompt "jobs" location datePosted =
      Vercel.jobsBase ++ Vercel.filterString location datePosted ∧
    Worker.getSystemPrompt "critique" location datePosted = Worker.critiqueBase ∧
    Vercel.getSystemPrompt "jobs" none none = Vercel.jobsBase ∧
    Vercel.getSystemPrompt "contacts" none none = Vercel.contactsBase := by
  refine ⟨filterString_empty_iff location datePosted, rfl, rfl, rfl, rfl, rfl, ?_, ?_⟩
  · show Vercel.jobsBase ++ Vercel.filterString none none = Vercel.jobsBase
    rw [show Vercel.filterString none none = "" from rfl, String.append_empty]
  · show Vercel.contactsBase ++ Vercel.filterString none none = Vercel.contactsBase
    rw [show Vercel.filterString none none = "" from rfl, String.append_empty]

/-! ## Claim C9 — response-body dichotomy, no retry -/

/-- Claim C9, counterexample: in the Vercel variant, an upstream response
whose first part has no `text` but carries grounding attributions yields a
200 body holding `sources` but no `text` field — a partial result, neither
the full `{text, sources}` payload nor an `{error}` payload. -/
theorem c9_counterexample :
    (Vercel.handler ⟨some "John", some "jobs", none, none⟩ (some "k") "POST"
      (.ok resultNoTextWithSources)).status = 200 ∧
    (Vercel.handler ⟨some "John", some "jobs", none, none⟩ (some "k") "POST"
      (.ok resultNoTextWithSources)).error = none ∧
    (Vercel.handler ⟨some "John", some "jobs", none, none⟩ (some "k") "POST"
      (.ok resultNoTextWithSources)).sources = some [mkSource attrGood] ∧
    (Vercel.handler ⟨some "John", some "jobs", none, none⟩ (some "k") "POST"
      (.ok resultNoTextWithSources)).text = none := by
  refine ⟨rfl, rfl, rfl, rfl⟩

/-- Claim C9 (amended): every invocation of any variant issues at most one
upstream call (no retry), and the response body is either a success body
(no `error` field, `sources` present — and in the Pages variant `text` is
then always present too) or an error body carrying only `error`; fields of
the two shapes never mix. Exception forced by `c9_counterexample`: in the
Vercel/Worker variants a success body may lack `text` when the upstream
first part has none. -/
theorem c9_dichotomy (body : ReqBody) (key : Option String) (m : String)
    (up : Except String GeminiResult) (upP : Pages.Upstream) :
    ((Vercel.handler body key m up).calls.length ≤ 1 ∧
      (((Vercel.handler body key m up).error = none ∧
        (Vercel.handler body key m up).sources ≠ none) ∨
       ((Vercel.handler body key m up).error ≠ none ∧
        (Vercel.handler body key m up).text = none ∧
        (Vercel.handler body key m up).sources = none))) ∧
    ((Worker.onRequest body key m up).calls.length ≤ 1 ∧
      (((Worker.onRequest body key m up).error = none ∧
        (Worker.onRequest body key m up).sources ≠ none) ∨
       ((Worker.onRequest body key m up).error ≠ none ∧
        (Worker.onRequest body key m up).text = none ∧
        (Worker.onRequest body key m up).sources = none))) ∧
    ((Pages.onRequestPost body key upP).calls.length ≤ 1 ∧
      (((Pages.onRequestPost body key upP).error = none ∧
        (Pages.onRequestPost body key upP).text ≠ none ∧
        (Pages.onRequestPost body key upP).sources ≠ none) ∨
       ((Pages.onRequestPost body key upP).error ≠ none ∧
        (Pages.onRequestPost body key upP).text = none ∧
        (Pages.onRequestPost body key upP).sources = none))) := by
  refine ⟨?_, ?_, ?_⟩
  · unfold Vercel.handler
    by_cases hkey : truthy key = true
    · by_cases hm : (m == "POST") = true
      · cases hrt : truthy body.resumeText with
        | false => simp [hkey, hm, hrt]
        | true =>
          cases ht : truthy body.type with
          | false => simp [hkey, hm, hrt, ht]
          | true =>
            simp only [hkey, hm, hrt, ht, Bool.not_true, if_true, if_false,
              Bool.false_eq_true]
            rcases up with msg | r
            · simp
            · rcases h : Vercel.extractText r with msg | t0 <;> simp [h]
      · have hm' : (m == "POST") = false := by simpa using hm
        simp [hkey, hm']
    · have hk : truthy key = false := by simpa using hkey
      simp [hk]
  · unfold Worker.onRequest
    by_cases hkey : truthy key = true
    · by_cases hm : (m == "POST") = true
      · cases hrt : truthy body.resumeText with
        | false => simp [hkey, hm, hrt]
        | true =>
          cases ht : truthy body.type with
          | false => simp [hkey, hm, hrt, ht]
          | true =>
            simp only [hkey, hm, hrt, ht, Bool.not_true, if_true, if_false,
              Bool.false_eq_true]
            rcases up with msg | r
            · simp
            · rcases h : Vercel.extractText r with msg | t0 <;> simp [h]
      · have hm' : (m == "POST") = false := by simpa using hm
        simp [hkey, hm']
    · have hk : truthy key = false := by simpa using hkey
      simp [hk]
  · unfold Pages.onRequestPost
    by_cases hkey : truthy key = true
    · rcases hsel : Pages.selectPrompt body.type body.location body.datePosted
        with _ | pr
      · simp [hkey, hsel]
      · obtain ⟨sp, tl⟩ := pr
        cases ho : upP.ok with
        | false => simp [hkey, hsel, ho]
        | true => simp [hkey, hsel, ho]
    · have hk : truthy key = false := by simpa using hkey
      simp [hk]

end ResumeAnalyzer
